import Mathlib

/-!
MessageBox Utility: a shallow embedding of `messagebox.c`.

The program reads its command line, resolves an icon token and a button token,
computes a timeout, asks the host for one modal dialog and prints the label of
the outcome code.

Modelling decisions.

* C strings (`argv[i]`, string literals) are Lean `String`s, compared through
  their character lists.
* `UINT` and `DWORD` values are `Nat`; `int` values are `Int`. The places where
  32-bit arithmetic matters (`atoi(argv[5]) * 1000` stored in a `DWORD`) reduce
  explicitly modulo `2 ^ 32`.
* The C runtime functions `_stricmp` and `atoi` and the constants of
  `<windows.h>` are not part of the sources; they are modelled after their
  documentation.
* The host (the C runtime console and `user32.dll`) is a record `Host`: whether
  `LoadLibraryA` and `GetProcAddress` succeed, and what the two dialog functions
  return. Every host call made by `main` is recorded in `Outcome.calls`.
* `stdout` and `stderr` are the lists of the texts written, one entry per
  `printf` or `fprintf` call. Console attachment and text colours write no text
  and are not modelled.
-/

namespace MessageBox

/-! ## Constants of `<windows.h>` -/

/-- Modelled from the spec: the `<windows.h>` value of `MB_OK`; the header is not in the sources. -/
def MB_OK : Nat := 0x00
/-- Modelled from the spec: the `<windows.h>` value of `MB_OKCANCEL`; the header is not in the sources. -/
def MB_OKCANCEL : Nat := 0x01
/-- Modelled from the spec: the `<windows.h>` value of `MB_YESNOCANCEL`; the header is not in the sources. -/
def MB_YESNOCANCEL : Nat := 0x03
/-- Modelled from the spec: the `<windows.h>` value of `MB_YESNO`; the header is not in the sources. -/
def MB_YESNO : Nat := 0x04
/-- Modelled from the spec: the `<windows.h>` value of `MB_RETRYCANCEL`; the header is not in the sources. -/
def MB_RETRYCANCEL : Nat := 0x05
/-- Modelled from the spec: the `<windows.h>` value of `MB_ICONERROR`; the header is not in the sources. -/
def MB_ICONERROR : Nat := 0x10
/-- Modelled from the spec: the `<windows.h>` value of `MB_ICONQUESTION`; the header is not in the sources. -/
def MB_ICONQUESTION : Nat := 0x20
/-- Modelled from the spec: the `<windows.h>` value of `MB_ICONWARNING`; the header is not in the sources. -/
def MB_ICONWARNING : Nat := 0x30
/-- Modelled from the spec: the `<windows.h>` value of `MB_ICONINFORMATION`; the header is not in the sources. -/
def MB_ICONINFORMATION : Nat := 0x40

/-- Modelled from the spec: the `<windows.h>` value of `IDOK`; the header is not in the sources. -/
def IDOK : Int := 1
/-- Modelled from the spec: the `<windows.h>` value of `IDCANCEL`; the header is not in the sources. -/
def IDCANCEL : Int := 2
/-- Modelled from the spec: the `<windows.h>` value of `IDRETRY`; the header is not in the sources. -/
def IDRETRY : Int := 4
/-- Modelled from the spec: the `<windows.h>` value of `IDYES`; the header is not in the sources. -/
def IDYES : Int := 6
/-- Modelled from the spec: the `<windows.h>` value of `IDNO`; the header is not in the sources. -/
def IDNO : Int := 7
/-- Modelled from the spec: the `<windows.h>` value of `IDTIMEOUT`; the header is not in the sources. -/
def IDTIMEOUT : Int := 32000

/-- Smallest value of a 32-bit `int`. -/
def INT_MIN : Int := -2147483648
/-- Largest value of a 32-bit `int`. -/
def INT_MAX : Int := 2147483647

/-! ## C library functions used by the program -/

/-- The C runtime `_stricmp(a, b)`, which is not part of the sources, after its
documentation: it compares the two strings after folding every character to
lower case (the letters `A` to `Z` only, as in the C locale the program runs
in); the result is `0` exactly when the folded strings agree. Only the test
`== 0` is used by the program. -/
def stricmpIsZero (a b : String) : Bool :=
  a.toList.map Char.toLower == b.toList.map Char.toLower

/-- The C library `isspace` in the C locale: space, and the controls 9 to 13. -/
def isspace (c : Char) : Bool :=
  c.toNat == 32 || (9 ≤ c.toNat && c.toNat ≤ 13)

/-- The C library `isdigit`: the characters `0` to `9`. -/
def isdigit (c : Char) : Bool :=
  48 ≤ c.toNat && c.toNat ≤ 57

/-- The digit loop of `atoi`: accumulates decimal digits and stops at the first
character that is not a digit. -/
def atoiDigits : List Char → Nat → Nat
  | [], acc => acc
  | c :: cs, acc =>
    if isdigit c then atoiDigits cs (10 * acc + (c.toNat - 48)) else acc

/-- The part of `atoi` after the leading white space: one optional sign, then digits. -/
def atoiSigned : List Char → Int
  | [] => 0
  | c :: cs =>
    if c = '-' then - (atoiDigits cs 0 : Int)
    else if c = '+' then (atoiDigits cs 0 : Int)
    else (atoiDigits (c :: cs) 0 : Int)

/-- Saturation to the range of a 32-bit `int`. -/
def clampInt32 (x : Int) : Int :=
  if x < INT_MIN then INT_MIN else if INT_MAX < x then INT_MAX else x

/-- The C runtime `atoi`, which is not part of the sources, after its
documentation: it skips leading white space, reads one optional sign and the
longest run of decimal digits and ignores the rest; no digits gives `0`. A value
outside the range of `int` saturates, as the Microsoft runtime documents. -/
def atoi (s : String) : Int :=
  clampInt32 (atoiSigned (s.toList.dropWhile isspace))

/-- Multiplication of two `int`s as the 32-bit targets of the program compute
it: the exact product wrapped to 32-bit two-complement. -/
def mulInt32 (a b : Int) : Int :=
  (a * b + 2147483648) % 4294967296 - 2147483648

/-- Conversion of an `int` to `DWORD`: reduction modulo `2 ^ 32`. -/
def toDWORD (x : Int) : Nat :=
  (x % 4294967296).toNat

/-! ## The functions of `messagebox.c` -/

/-- Source `equals`: case-insensitive string comparison. -/
def equals (a b : String) : Bool :=
  stricmpIsZero a b

/-- Source `showHelp`: the texts written to standard output, one per `printf`. -/
def showHelp : List String :=
  [ "\nMessageBox Utility - Help Version 1.1\n\n",
    "Command-Line Arguments:\n",
    "  message  : The text to display in the message box.\n",
    "  title    : The title of the message box window.\n",
    "  icon     : Icon style (ERROR, WARNING, INFORMATION, QUESTION).\n",
    "  buttons  : Button options (OK, OKCANCEL, RETRYCANCEL, YESNO, YESNOCANCEL).\n",
    "  timeout  : Timeout in seconds (optional, default: 15).\n\n",
    "Usage Examples:\n",
    "  messagebox.exe \"Hello!\" \"Greetings\" INFORMATION OK\n",
    "  messagebox.exe \"Delete file?\" \"Confirm\" QUESTION YESNOCANCEL 10\n",
    "  messagebox.exe /?\n\n",
    "Output:\n",
    "  Shows button pressed: OK, Cancel, Yes, No, Retry, or Timeout.\n\n",
    "This utility is fully compatible with Windows operating systems, including Windows 7, 8, 8.1, 10, and 11, ensuring reliable performance across a wide range of environments.\n\n" ]

/-- Source `resultToString`: the label of a dialog outcome code. -/
def resultToString (res : Int) : String :=
  if res = IDOK then "OK"
  else if res = IDCANCEL then "Cancel"
  else if res = IDYES then "Yes"
  else if res = IDNO then "No"
  else if res = IDRETRY then "Retry"
  else if res = IDTIMEOUT then "Timeout"
  else "Unknown"

/-- Source `getIconFlag`: the style flag of an icon token, `0` for no match. -/
def getIconFlag (icon : String) : Nat :=
  if equals icon "ERROR" then MB_ICONERROR
  else if equals icon "WARNING" then MB_ICONWARNING
  else if equals icon "INFORMATION" then MB_ICONINFORMATION
  else if equals icon "QUESTION" then MB_ICONQUESTION
  else 0

/-- Source `getButtonFlag`: the style flag of a button token, `0` for no match. -/
def getButtonFlag (btn : String) : Nat :=
  if equals btn "OK" then MB_OK
  else if equals btn "OKCANCEL" then MB_OKCANCEL
  else if equals btn "RETRYCANCEL" then MB_RETRYCANCEL
  else if equals btn "YESNO" then MB_YESNO
  else if equals btn "YESNOCANCEL" then MB_YESNOCANCEL
  else 0

/-! ## The host and the observable outcome of a run -/

/-- The host facilities `main` depends on. -/
structure Host where
  /-- Whether `LoadLibraryA("user32.dll")` returns a module handle. -/
  loadUser32 : Bool
  /-- Whether `GetProcAddress(hUser32, "MessageBoxTimeoutA")` returns a function. -/
  hasMessageBoxTimeoutA : Bool
  /-- The outcome code of `MessageBoxTimeoutA(NULL, text, caption, type, languageId, milliseconds)`. -/
  messageBoxTimeoutA : String → String → Nat → Nat → Nat → Int
  /-- The outcome code of `MessageBoxA(NULL, text, caption, type)`. -/
  messageBoxA : String → String → Nat → Int

/-- One call of `main` into the host. -/
inductive HostCall where
  | loadLibraryA (name : String)
  | getProcAddress (name : String)
  | messageBoxTimeoutA (text caption : String) (type languageId milliseconds : Nat)
  | messageBoxA (text caption : String) (type : Nat)
  | freeLibrary
  deriving DecidableEq, Repr

/-- Whether a host call displays a dialog. -/
def HostCall.isDialog : HostCall → Bool
  | .messageBoxTimeoutA _ _ _ _ _ => true
  | .messageBoxA _ _ _ => true
  | _ => false

/-- What a run of the program leaves behind. -/
structure Outcome where
  /-- The value returned by `main`. -/
  exitCode : Int
  /-- The texts written to standard output, in order. -/
  stdout : List String
  /-- The texts written to standard error, in order. -/
  stderr : List String
  /-- The host calls made, in order. -/
  calls : List HostCall
  deriving DecidableEq, Repr

/-- Source `main`, with `argc = argv.length` and `argv[0]` the program name. -/
def main (host : Host) (argv : List String) : Outcome :=
  let argc := argv.length
  -- Show help if requested
  if argc = 2 ∧ equals (argv.getD 1 "") "/?" = true then
    { exitCode := 0, stdout := showHelp, stderr := [], calls := [] }
  -- Validate argument count
  else if argc < 5 ∨ argc > 6 then
    { exitCode := 1, stdout := [],
      stderr := ["Invalid arguments. Use /? for help.\n"], calls := [] }
  else
    -- Parse command line arguments
    let message := argv.getD 1 ""
    let title := argv.getD 2 ""
    let icon := getIconFlag (argv.getD 3 "")
    let button := getButtonFlag (argv.getD 4 "")
    let timeout : Nat :=
      if argc = 6 then toDWORD (mulInt32 (atoi (argv.getD 5 "")) 1000) else 15000
    -- Validate icon type
    if icon = 0 then
      { exitCode := 1, stdout := [],
        stderr := ["Invalid icon type. Use ERROR, WARNING, INFORMATION, QUESTION.\n"],
        calls := [] }
    -- Validate button type
    else if getButtonFlag (argv.getD 4 "") = 0 ∧ equals (argv.getD 4 "") "OK" = false then
      { exitCode := 1, stdout := [],
        stderr := ["Invalid button type. Use OK, OKCANCEL, RETRYCANCEL, YESNO, YESNOCANCEL.\n"],
        calls := [] }
    else
      let type := icon ||| button
      if host.loadUser32 = false then
        { exitCode := 1, stdout := [], stderr := ["Could not load user32.dll\n"],
          calls := [.loadLibraryA "user32.dll"] }
      else if host.hasMessageBoxTimeoutA = true then
        let result := host.messageBoxTimeoutA message title type 0 timeout
        { exitCode := 0, stdout := [resultToString result ++ "\n"], stderr := [],
          calls := [.loadLibraryA "user32.dll", .getProcAddress "MessageBoxTimeoutA",
                    .messageBoxTimeoutA message title type 0 timeout, .freeLibrary] }
      else
        let result := host.messageBoxA message title type
        { exitCode := 0, stdout := [resultToString result ++ "\n"],
          stderr := ["MessageBoxTimeoutA not available. Falling back to MessageBoxA (no timeout).\n"],
          calls := [.loadLibraryA "user32.dll", .getProcAddress "MessageBoxTimeoutA",
                    .messageBoxA message title type, .freeLibrary] }

/-- A host on which the library loads, the timeout dialog is missing and the
plain dialog returns `code`. -/
def fallbackHost (code : Int) : Host :=
  { loadUser32 := true, hasMessageBoxTimeoutA := false,
    messageBoxTimeoutA := fun _ _ _ _ _ => 0, messageBoxA := fun _ _ _ => code }

/-- A host on which everything loads and every dialog returns `code`. -/
def constHost (code : Int) : Host :=
  { loadUser32 := true, hasMessageBoxTimeoutA := true,
    messageBoxTimeoutA := fun _ _ _ _ _ => code, messageBoxA := fun _ _ _ => code }

/-! ## The vocabulary of the specification -/

/-- The icon kinds of the data model. -/
inductive IconKind where
  | error | warning | information | question
  deriving DecidableEq, Repr, Fintype

/-- The button sets of the data model. -/
inductive ButtonSet where
  | ok | okCancel | retryCancel | yesNo | yesNoCancel
  deriving DecidableEq, Repr, Fintype

/-- The command-line token of an icon kind. -/
def IconKind.token : IconKind → String
  | .error => "ERROR"
  | .warning => "WARNING"
  | .information => "INFORMATION"
  | .question => "QUESTION"

/-- The style flag of an icon kind. -/
def IconKind.flag : IconKind → Nat
  | .error => MB_ICONERROR
  | .warning => MB_ICONWARNING
  | .information => MB_ICONINFORMATION
  | .question => MB_ICONQUESTION

/-- The command-line token of a button set. -/
def ButtonSet.token : ButtonSet → String
  | .ok => "OK"
  | .okCancel => "OKCANCEL"
  | .retryCancel => "RETRYCANCEL"
  | .yesNo => "YESNO"
  | .yesNoCancel => "YESNOCANCEL"

/-- The style flag of a button set. -/
def ButtonSet.flag : ButtonSet → Nat
  | .ok => MB_OK
  | .okCancel => MB_OKCANCEL
  | .retryCancel => MB_RETRYCANCEL
  | .yesNo => MB_YESNO
  | .yesNoCancel => MB_YESNOCANCEL

/-- The argument `s` is the token `tok` up to the case of its letters:
putting every letter of `s` in upper case gives `tok`. -/
def matchesToken (s tok : String) : Prop :=
  s.toList.map Char.toUpper = tok.toList

instance (s tok : String) : Decidable (matchesToken s tok) :=
  inferInstanceAs (Decidable (s.toList.map Char.toUpper = tok.toList))

/-- The argument resolves to an icon kind. -/
def IsIconToken (s : String) : Prop :=
  ∃ k : IconKind, matchesToken s k.token

/-- The argument resolves to a button set. -/
def IsButtonToken (s : String) : Prop :=
  ∃ b : ButtonSet, matchesToken s b.token

instance (s : String) : Decidable (IsIconToken s) :=
  inferInstanceAs (Decidable (∃ k : IconKind, matchesToken s k.token))

instance (s : String) : Decidable (IsButtonToken s) :=
  inferInstanceAs (Decidable (∃ b : ButtonSet, matchesToken s b.token))

/-- A valid invocation: four or five positional arguments after the program
name, an icon token and a button token. -/
def ValidInvocation (argv : List String) : Prop :=
  (argv.length = 5 ∨ argv.length = 6) ∧
    IsIconToken (argv.getD 3 "") ∧ IsButtonToken (argv.getD 4 "")

instance (argv : List String) : Decidable (ValidInvocation argv) :=
  inferInstanceAs (Decidable ((argv.length = 5 ∨ argv.length = 6) ∧
    IsIconToken (argv.getD 3 "") ∧ IsButtonToken (argv.getD 4 "")))

/-- The style word `main` builds (source line 130). -/
def styleOf (argv : List String) : Nat :=
  getIconFlag (argv.getD 3 "") ||| getButtonFlag (argv.getD 4 "")

/-- The decimal numeral of an integer: a minus sign for a negative number,
then the decimal digits of the absolute value. -/
def numeral (t : Int) : String :=
  if t < 0 then "-" ++ Nat.repr t.natAbs else Nat.repr t.natAbs

/-- Whether the argument is a decimal integer numeral: one optional sign, then
at least one character, all of them decimal digits. -/
def isDecimalNumeral (s : String) : Bool :=
  match s.toList with
  | [] => false
  | c :: cs =>
    if c = '-' ∨ c = '+' then !cs.isEmpty && cs.all isdigit
    else (c :: cs).all isdigit

/-- Whether the argument begins with an integer: after optional white space
and one optional sign, the next character is a decimal digit. -/
def startsWithInteger (s : String) : Bool :=
  match s.toList.dropWhile isspace with
  | [] => false
  | c :: cs =>
    if c = '-' ∨ c = '+' then
      (match cs with
       | [] => false
       | d :: _ => isdigit d)
    else isdigit c

/-- The outcome code the host returns to a dialog call. -/
def Host.answer (host : Host) : HostCall → Int
  | .messageBoxTimeoutA text caption type languageId milliseconds =>
    host.messageBoxTimeoutA text caption type languageId milliseconds
  | .messageBoxA text caption type => host.messageBoxA text caption type
  | _ => 0

/-- The timeout `main` computes (source line 115), in milliseconds. -/
def timeoutOf (argv : List String) : Nat :=
  if argv.length = 6 then toDWORD (mulInt32 (atoi (argv.getD 5 "")) 1000) else 15000

/-- The tail of `main` (source lines 130 to 152) as a function of the resolved
message, title, style word and timeout. -/
def dialogPhase (host : Host) (message title : String) (type timeout : Nat) : Outcome :=
  if host.loadUser32 = false then
    { exitCode := 1, stdout := [], stderr := ["Could not load user32.dll\n"],
      calls := [.loadLibraryA "user32.dll"] }
  else if host.hasMessageBoxTimeoutA = true then
    { exitCode := 0,
      stdout := [resultToString (host.messageBoxTimeoutA message title type 0 timeout) ++ "\n"],
      stderr := [],
      calls := [.loadLibraryA "user32.dll", .getProcAddress "MessageBoxTimeoutA",
                .messageBoxTimeoutA message title type 0 timeout, .freeLibrary] }
  else
    { exitCode := 0, stdout := [resultToString (host.messageBoxA message title type) ++ "\n"],
      stderr := ["MessageBoxTimeoutA not available. Falling back to MessageBoxA (no timeout).\n"],
      calls := [.loadLibraryA "user32.dll", .getProcAddress "MessageBoxTimeoutA",
                .messageBoxA message title type, .freeLibrary] }

/-! ## Character lemmas -/

theorem toLower_toUpper (c : Char) : c.toUpper.toLower = c.toLower := by
  by_cases h : 97 ≤ c.toNat ∧ c.toNat ≤ 122
  · have hc : c = Char.ofNat c.toNat := (Char.ofNat_toNat c).symm
    generalize c.toNat = n at h hc
    obtain ⟨h1, h2⟩ := h
    subst hc
    interval_cases n <;> rfl
  · simp [Char.toUpper, h]

theorem toUpper_toLower (c : Char) : c.toLower.toUpper = c.toUpper := by
  by_cases h : 65 ≤ c.toNat ∧ c.toNat ≤ 90
  · have hc : c = Char.ofNat c.toNat := (Char.ofNat_toNat c).symm
    generalize c.toNat = n at h hc
    obtain ⟨h1, h2⟩ := h
    subst hc
    interval_cases n <;> rfl
  · simp [Char.toLower, h]

theorem map_toLower_eq_iff (l₁ l₂ : List Char) :
    l₁.map Char.toLower = l₂.map Char.toLower ↔ l₁.map Char.toUpper = l₂.map Char.toUpper := by
  constructor
  · intro h
    have := congrArg (List.map Char.toUpper) h
    simpa [List.map_map, Function.comp_def, toUpper_toLower] using this
  · intro h
    have := congrArg (List.map Char.toLower) h
    simpa [List.map_map, Function.comp_def, toLower_toUpper] using this

theorem equals_upper (s tok : String) (h : tok.toList.map Char.toUpper = tok.toList) :
    equals s tok = decide (s.toList.map Char.toUpper = tok.toList) := by
  have key : (s.toList.map Char.toLower = tok.toList.map Char.toLower) ↔
      (s.toList.map Char.toUpper = tok.toList) := by
    rw [map_toLower_eq_iff, h]
  unfold equals stricmpIsZero
  by_cases hu : s.toList.map Char.toUpper = tok.toList
  · rw [decide_eq_true hu]
    exact beq_iff_eq.mpr (key.mpr hu)
  · rw [decide_eq_false hu]
    exact beq_eq_false_iff_ne.mpr (fun hl => hu (key.mp hl))


/-! ## Token resolution -/

theorem equals_iff_matches (s tok : String) (h : tok.toList.map Char.toUpper = tok.toList) :
    equals s tok = true ↔ matchesToken s tok := by
  rw [equals_upper s tok h]
  exact decide_eq_true_iff

theorem getIconFlag_of_matches (k : IconKind) (s : String) (h : matchesToken s k.token) :
    getIconFlag s = k.flag := by
  unfold matchesToken at h
  unfold getIconFlag
  rw [equals_upper s "ERROR" (by decide), equals_upper s "WARNING" (by decide),
    equals_upper s "INFORMATION" (by decide), equals_upper s "QUESTION" (by decide), h]
  cases k <;> decide

theorem getButtonFlag_of_matches (b : ButtonSet) (s : String) (h : matchesToken s b.token) :
    getButtonFlag s = b.flag := by
  unfold matchesToken at h
  unfold getButtonFlag
  rw [equals_upper s "OK" (by decide), equals_upper s "OKCANCEL" (by decide),
    equals_upper s "RETRYCANCEL" (by decide), equals_upper s "YESNO" (by decide),
    equals_upper s "YESNOCANCEL" (by decide), h]
  cases b <;> decide

theorem getIconFlag_eq_zero_iff (s : String) : getIconFlag s = 0 ↔ ¬ IsIconToken s := by
  constructor
  · rintro h ⟨k, hk⟩
    rw [getIconFlag_of_matches k s hk] at h
    cases k <;> simp [IconKind.flag, MB_ICONERROR, MB_ICONWARNING, MB_ICONINFORMATION,
      MB_ICONQUESTION] at h
  · intro h
    unfold getIconFlag
    have h1 : equals s "ERROR" = false := by
      rw [Bool.eq_false_iff]
      exact fun e => h ⟨.error, (equals_iff_matches s "ERROR" (by decide)).mp e⟩
    have h2 : equals s "WARNING" = false := by
      rw [Bool.eq_false_iff]
      exact fun e => h ⟨.warning, (equals_iff_matches s "WARNING" (by decide)).mp e⟩
    have h3 : equals s "INFORMATION" = false := by
      rw [Bool.eq_false_iff]
      exact fun e => h ⟨.information, (equals_iff_matches s "INFORMATION" (by decide)).mp e⟩
    have h4 : equals s "QUESTION" = false := by
      rw [Bool.eq_false_iff]
      exact fun e => h ⟨.question, (equals_iff_matches s "QUESTION" (by decide)).mp e⟩
    simp [h1, h2, h3, h4]

theorem buttonCheck_iff (s : String) :
    (getButtonFlag s = 0 ∧ equals s "OK" = false) ↔ ¬ IsButtonToken s := by
  constructor
  · rintro ⟨h0, hok⟩ ⟨b, hb⟩
    rw [getButtonFlag_of_matches b s hb] at h0
    cases b
    · rw [(equals_iff_matches s "OK" (by decide)).mpr hb] at hok
      exact Bool.noConfusion hok
    all_goals simp [ButtonSet.flag, MB_OKCANCEL, MB_RETRYCANCEL, MB_YESNO, MB_YESNOCANCEL] at h0
  · intro h
    have h1 : equals s "OK" = false := by
      rw [Bool.eq_false_iff]
      exact fun e => h ⟨.ok, (equals_iff_matches s "OK" (by decide)).mp e⟩
    have h2 : equals s "OKCANCEL" = false := by
      rw [Bool.eq_false_iff]
      exact fun e => h ⟨.okCancel, (equals_iff_matches s "OKCANCEL" (by decide)).mp e⟩
    have h3 : equals s "RETRYCANCEL" = false := by
      rw [Bool.eq_false_iff]
      exact fun e => h ⟨.retryCancel, (equals_iff_matches s "RETRYCANCEL" (by decide)).mp e⟩
    have h4 : equals s "YESNO" = false := by
      rw [Bool.eq_false_iff]
      exact fun e => h ⟨.yesNo, (equals_iff_matches s "YESNO" (by decide)).mp e⟩
    have h5 : equals s "YESNOCANCEL" = false := by
      rw [Bool.eq_false_iff]
      exact fun e => h ⟨.yesNoCancel, (equals_iff_matches s "YESNOCANCEL" (by decide)).mp e⟩
    refine ⟨?_, h1⟩
    unfold getButtonFlag
    simp [h1, h2, h3, h4, h5]

/-! ## Unfolding `main` -/

theorem main_eq_dialogPhase (host : Host) (argv : List String)
    (hlen : argv.length = 5 ∨ argv.length = 6)
    (hi : getIconFlag (argv.getD 3 "") ≠ 0)
    (hb : ¬ (getButtonFlag (argv.getD 4 "") = 0 ∧ equals (argv.getD 4 "") "OK" = false)) :
    main host argv =
      dialogPhase host (argv.getD 1 "") (argv.getD 2 "") (styleOf argv) (timeoutOf argv) := by
  have h1 : ¬ (argv.length = 2 ∧ equals (argv.getD 1 "") "/?" = true) := by omega
  have h2 : ¬ (argv.length < 5 ∨ argv.length > 6) := by omega
  unfold main dialogPhase styleOf timeoutOf
  simp only [if_neg h1, if_neg h2, if_neg hi, if_neg hb]

theorem main_valid (host : Host) (argv : List String) (hv : ValidInvocation argv) :
    main host argv =
      dialogPhase host (argv.getD 1 "") (argv.getD 2 "") (styleOf argv) (timeoutOf argv) := by
  obtain ⟨hlen, hi, hb⟩ := hv
  refine main_eq_dialogPhase host argv hlen ?_ ?_
  · intro h0
    exact (getIconFlag_eq_zero_iff _).mp h0 hi
  · intro h0
    exact (buttonCheck_iff _).mp h0 hb

theorem main_count_error (host : Host) (argv : List String)
    (h1 : ¬ (argv.length = 2 ∧ equals (argv.getD 1 "") "/?" = true))
    (h2 : argv.length < 5 ∨ argv.length > 6) :
    main host argv =
      { exitCode := 1, stdout := [], stderr := ["Invalid arguments. Use /? for help.\n"],
        calls := [] } := by
  unfold main
  simp only [if_neg h1, if_pos h2]

theorem main_icon_error (host : Host) (argv : List String)
    (hlen : argv.length = 5 ∨ argv.length = 6) (hi : getIconFlag (argv.getD 3 "") = 0) :
    main host argv =
      { exitCode := 1, stdout := [],
        stderr := ["Invalid icon type. Use ERROR, WARNING, INFORMATION, QUESTION.\n"],
        calls := [] } := by
  have h1 : ¬ (argv.length = 2 ∧ equals (argv.getD 1 "") "/?" = true) := by omega
  have h2 : ¬ (argv.length < 5 ∨ argv.length > 6) := by omega
  unfold main
  simp only [if_neg h1, if_neg h2, if_pos hi]

theorem main_button_error (host : Host) (argv : List String)
    (hlen : argv.length = 5 ∨ argv.length = 6) (hi : getIconFlag (argv.getD 3 "") ≠ 0)
    (hb : getButtonFlag (argv.getD 4 "") = 0 ∧ equals (argv.getD 4 "") "OK" = false) :
    main host argv =
      { exitCode := 1, stdout := [],
        stderr := ["Invalid button type. Use OK, OKCANCEL, RETRYCANCEL, YESNO, YESNOCANCEL.\n"],
        calls := [] } := by
  have h1 : ¬ (argv.length = 2 ∧ equals (argv.getD 1 "") "/?" = true) := by omega
  have h2 : ¬ (argv.length < 5 ∨ argv.length > 6) := by omega
  unfold main
  simp only [if_neg h1, if_neg h2, if_neg hi, if_pos hb]

theorem main_help (host : Host) (argv : List String)
    (h1 : argv.length = 2 ∧ equals (argv.getD 1 "") "/?" = true) :
    main host argv = { exitCode := 0, stdout := showHelp, stderr := [], calls := [] } := by
  unfold main
  simp only [if_pos h1]

theorem timeoutOf_six (prog message title icon button arg : String) :
    timeoutOf [prog, message, title, icon, button, arg] =
      toDWORD (mulInt32 (atoi arg) 1000) := rfl

/-! ## The help token -/

theorem toLower_eq_of_not_lower (c d : Char) (hd : ¬ (97 ≤ d.toNat ∧ d.toNat ≤ 122))
    (h : c.toLower = d) : c = d := by
  by_cases hu : 65 ≤ c.toNat ∧ c.toNat ≤ 90
  · exfalso
    apply hd
    rw [← h]
    have hc : c = Char.ofNat c.toNat := (Char.ofNat_toNat c).symm
    generalize c.toNat = n at hu hc
    obtain ⟨h1, h2⟩ := hu
    subst hc
    interval_cases n <;> decide
  · simpa [Char.toLower, hu] using h

theorem equals_help_iff (s : String) : equals s "/?" = true ↔ s = "/?" := by
  constructor
  · intro h
    have hl : s.toList.map Char.toLower = ['/', '?'] := by
      have := beq_iff_eq.mp h
      simpa using this
    apply String.ext
    show s.toList = ['/', '?']
    rcases hs : s.toList with _ | ⟨a, _ | ⟨b, _ | ⟨c, r⟩⟩⟩ <;> rw [hs] at hl <;>
      simp only [List.map_cons, List.map_nil, List.cons.injEq, and_true, and_false,
        reduceCtorEq] at hl
    rw [toLower_eq_of_not_lower a '/' (by decide) hl.1,
      toLower_eq_of_not_lower b '?' (by decide) hl.2]
  · rintro rfl
    decide

/-! ## The C library `atoi` on decimal numerals -/

theorem digitChar_lt_ten (k : Nat) (hk : k < 10) :
    isdigit (Nat.digitChar k) = true ∧ (Nat.digitChar k).toNat - 48 = k := by
  interval_cases k <;> decide

theorem isdigit_not_space (c : Char) (h : isdigit c = true) : isspace c = false := by
  unfold isdigit at h
  unfold isspace
  simp only [Bool.and_eq_true, decide_eq_true_eq] at h
  simp only [Bool.or_eq_false_iff, Bool.and_eq_false_iff, beq_eq_false_iff_ne,
    decide_eq_false_iff_not]
  omega

theorem isdigit_not_sign (c : Char) (h : isdigit c = true) : c ≠ '-' ∧ c ≠ '+' := by
  constructor <;> rintro rfl <;> exact absurd h (by decide)

theorem atoiDigits_toDigitsCore (fuel : Nat) :
    ∀ (n : Nat) (ds : List Char), n < fuel →
      atoiDigits (Nat.toDigitsCore 10 fuel n ds) 0 = atoiDigits ds n := by
  induction fuel with
  | zero => intro n ds h; omega
  | succ fuel ih =>
    intro n ds h
    have hd := digitChar_lt_ten (n % 10) (Nat.mod_lt n (by decide))
    simp only [Nat.toDigitsCore]
    split
    · rename_i h0
      simp only [atoiDigits, hd.1, if_true, hd.2]
      congr 1
      omega
    · rw [ih (n / 10) _ (by omega)]
      simp only [atoiDigits, hd.1, if_true, hd.2]
      congr 1
      omega

theorem toDigitsCore_head (fuel : Nat) :
    ∀ (n : Nat) (ds : List Char),
      (fuel = 0 → ∃ c cs, ds = c :: cs ∧ isdigit c = true) →
      ∃ c cs, Nat.toDigitsCore 10 fuel n ds = c :: cs ∧ isdigit c = true := by
  induction fuel with
  | zero => intro n ds h; simpa [Nat.toDigitsCore] using h rfl
  | succ fuel ih =>
    intro n ds _
    have hd := digitChar_lt_ten (n % 10) (Nat.mod_lt n (by decide))
    simp only [Nat.toDigitsCore]
    split
    · exact ⟨_, _, rfl, hd.1⟩
    · exact ih _ _ (fun _ => ⟨_, _, rfl, hd.1⟩)

theorem atoiSigned_repr (m : Nat) :
    ∃ c cs, (Nat.repr m).toList = c :: cs ∧ isdigit c = true ∧
      atoiSigned (c :: cs) = (m : Int) ∧ atoiDigits (c :: cs) 0 = m := by
  obtain ⟨c, cs, hcs, hc⟩ := toDigitsCore_head (m + 1) m [] (by omega)
  have hv := atoiDigits_toDigitsCore (m + 1) m [] (by omega)
  rw [hcs] at hv
  refine ⟨c, cs, hcs, hc, ?_, ?_⟩
  · have hs := isdigit_not_sign c hc
    simp only [atoiSigned, if_neg hs.1, if_neg hs.2, hv]
    rfl
  · rw [hv]; rfl

theorem clampInt32_of_range (x : Int) (h1 : INT_MIN ≤ x) (h2 : x ≤ INT_MAX) :
    clampInt32 x = x := by
  unfold clampInt32
  rw [if_neg (by omega), if_neg (by omega)]

theorem atoi_numeral (n : Int) (h1 : INT_MIN ≤ n) (h2 : n ≤ INT_MAX) :
    atoi (numeral n) = n := by
  obtain ⟨c, cs, hcs, hc, hs, hv⟩ := atoiSigned_repr n.natAbs
  unfold atoi numeral
  by_cases hn : n < 0
  · rw [if_pos hn]
    have hl : ("-" ++ Nat.repr n.natAbs).toList = '-' :: c :: cs := by
      show ("-" ++ Nat.repr n.natAbs).data = _
      rw [String.data_append]
      show _ ++ (Nat.repr n.natAbs).toList = _
      rw [hcs]
      rfl
    rw [hl]
    have : List.dropWhile isspace ('-' :: c :: cs) = '-' :: c :: cs := by
      rw [List.dropWhile_cons_of_neg (by decide)]
    rw [this]
    simp only [atoiSigned, if_true, hv]
    have : (-(n.natAbs : Int)) = n := by omega
    rw [this]
    exact clampInt32_of_range n h1 h2
  · rw [if_neg hn, hcs]
    have : List.dropWhile isspace (c :: cs) = c :: cs := by
      rw [List.dropWhile_cons_of_neg (by simp [isdigit_not_space c hc])]
    rw [this, hs]
    have : ((n.natAbs : Nat) : Int) = n := by omega
    rw [this]
    exact clampInt32_of_range n h1 h2

theorem toDWORD_mulInt32 (a b : Int) :
    toDWORD (mulInt32 a b) = ((a * b) % 4294967296).toNat := by
  unfold toDWORD mulInt32
  congr 1
  omega

theorem atoi_of_no_integer (s : String) (h : startsWithInteger s = false) : atoi s = 0 := by
  unfold startsWithInteger at h
  unfold atoi
  generalize s.toList.dropWhile isspace = l at h
  rcases l with _ | ⟨c, cs⟩
  · rfl
  · simp only at h
    by_cases hm : c = '-'
    · subst hm
      rcases cs with _ | ⟨d, ds⟩
      · rfl
      · simp only [true_or, if_true] at h
        simp only [atoiSigned, if_true, atoiDigits, h]
        rfl
    · by_cases hp : c = '+'
      · subst hp
        rcases cs with _ | ⟨d, ds⟩
        · rfl
        · simp only [or_true, if_true] at h
          simp only [atoiSigned, if_neg hm, if_true, atoiDigits, h]
          rfl
      · simp only [hm, hp, or_self, if_false] at h
        simp only [atoiSigned, if_neg hm, if_neg hp, atoiDigits, h]
        rfl

/-! ## Helper facts on the outcome of a run -/

theorem dialogPhase_stdout_length (host : Host) (message title : String) (type timeout : Nat) :
    (dialogPhase host message title type timeout).stdout.length ≤ 1 := by
  unfold dialogPhase
  split_ifs <;> simp

theorem dialogPhase_stderr (host : Host) (message title : String) (type timeout : Nat) :
    (dialogPhase host message title type timeout).stderr = ["Could not load user32.dll\n"] ∨
    (dialogPhase host message title type timeout).stderr = [] ∨
    (dialogPhase host message title type timeout).stderr =
      ["MessageBoxTimeoutA not available. Falling back to MessageBoxA (no timeout).\n"] := by
  unfold dialogPhase
  split_ifs <;> simp

theorem dialogPhase_exit_one (host : Host) (message title : String) (type timeout : Nat)
    (h : (dialogPhase host message title type timeout).exitCode = 1) :
    host.loadUser32 = false := by
  unfold dialogPhase at h
  split_ifs at h with h1 h2
  · exact h1
  · simp at h
  · simp at h

/-! ## The claims -/

/-- C10: the style word `icon | button` determines the icon kind and the button
set. For tokens `i1`, `i2` of icon kinds `k1`, `k2` and tokens `b1`, `b2` of
button sets `s1`, `s2`, equal style words force `k1 = k2` and `s1 = s2`; the
icon flag is the style word masked with `0xF0`, is not zero, and the button
flag is the style word masked with `0x0F`; the flags of the four icon tokens are
`0x10, 0x30, 0x40, 0x20` and those of the five button tokens `0, 1, 5, 4, 3`. -/
theorem style_word_injective (k1 k2 : IconKind) (s1 s2 : ButtonSet) (i1 i2 b1 b2 : String)
    (hi1 : matchesToken i1 k1.token) (hi2 : matchesToken i2 k2.token)
    (hb1 : matchesToken b1 s1.token) (hb2 : matchesToken b2 s2.token) :
    (getIconFlag i1 ||| getButtonFlag b1 = getIconFlag i2 ||| getButtonFlag b2 →
      k1 = k2 ∧ s1 = s2) ∧
    (getIconFlag i1 ||| getButtonFlag b1) &&& 0xF0 = getIconFlag i1 ∧
    (getIconFlag i1 ||| getButtonFlag b1) &&& 0x0F = getButtonFlag b1 ∧
    getIconFlag i1 ≠ 0 ∧
    getIconFlag i1 &&& 0x0F = 0 ∧ getButtonFlag b1 &&& 0xF0 = 0 ∧
    (getIconFlag "ERROR" = 0x10 ∧ getIconFlag "WARNING" = 0x30 ∧
      getIconFlag "INFORMATION" = 0x40 ∧ getIconFlag "QUESTION" = 0x20) ∧
    (getButtonFlag "OK" = 0 ∧ getButtonFlag "OKCANCEL" = 1 ∧ getButtonFlag "RETRYCANCEL" = 5 ∧
      getButtonFlag "YESNO" = 4 ∧ getButtonFlag "YESNOCANCEL" = 3) := by
  rw [getIconFlag_of_matches k1 i1 hi1, getIconFlag_of_matches k2 i2 hi2,
    getButtonFlag_of_matches s1 b1 hb1, getButtonFlag_of_matches s2 b2 hb2]
  refine ⟨?_, ?_, ?_, ?_, ?_, ?_, ?_, ?_⟩
  · cases k1 <;> cases k2 <;> cases s1 <;> cases s2 <;> decide
  · cases k1 <;> cases s1 <;> decide
  · cases k1 <;> cases s1 <;> decide
  · cases k1 <;> decide
  · cases k1 <;> decide
  · cases s1 <;> decide
  · decide
  · decide

theorem style_word_injective_witness :
    (matchesToken "Error" IconKind.error.token ∧ matchesToken "question" IconKind.question.token ∧
      matchesToken "ok" ButtonSet.ok.token ∧ matchesToken "YesNo" ButtonSet.yesNo.token) ∧
    ((getIconFlag "Error" ||| getButtonFlag "ok" =
        getIconFlag "question" ||| getButtonFlag "YesNo" →
      IconKind.error = IconKind.question ∧ ButtonSet.ok = ButtonSet.yesNo) ∧
    (getIconFlag "Error" ||| getButtonFlag "ok") &&& 0xF0 = getIconFlag "Error" ∧
    (getIconFlag "Error" ||| getButtonFlag "ok") &&& 0x0F = getButtonFlag "ok") :=
  have h := style_word_injective .error .question .ok .yesNo "Error" "question" "ok" "YesNo"
    (by decide) (by decide) (by decide) (by decide)
  ⟨⟨by decide, by decide, by decide, by decide⟩, h.1, h.2.1, h.2.2.1⟩

/-- C4: with 4 or 5 positional arguments, `main` rejects the icon token exactly
when it matches none of ERROR, WARNING, INFORMATION, QUESTION up to case, which
is exactly when `getIconFlag` returns `0`; a rejected token gives exit code 1,
the error naming the valid icons on standard error, nothing on standard output
and no host call at all, hence no dialog. -/
theorem icon_rejected_iff (host : Host) (argv : List String)
    (hlen : argv.length = 5 ∨ argv.length = 6) :
    (getIconFlag (argv.getD 3 "") = 0 ↔ ¬ IsIconToken (argv.getD 3 "")) ∧
    ((main host argv).stderr =
        ["Invalid icon type. Use ERROR, WARNING, INFORMATION, QUESTION.\n"] ↔
      ¬ IsIconToken (argv.getD 3 "")) ∧
    (¬ IsIconToken (argv.getD 3 "") →
      main host argv =
        { exitCode := 1, stdout := [],
          stderr := ["Invalid icon type. Use ERROR, WARNING, INFORMATION, QUESTION.\n"],
          calls := [] }) := by
  have hrej : ¬ IsIconToken (argv.getD 3 "") →
      main host argv =
        { exitCode := 1, stdout := [],
          stderr := ["Invalid icon type. Use ERROR, WARNING, INFORMATION, QUESTION.\n"],
          calls := [] } :=
    fun h => main_icon_error host argv hlen ((getIconFlag_eq_zero_iff _).mpr h)
  refine ⟨getIconFlag_eq_zero_iff _, ⟨?_, fun h => by rw [hrej h]⟩, hrej⟩
  intro herr hicon
  have hi : getIconFlag (argv.getD 3 "") ≠ 0 := fun h0 => (getIconFlag_eq_zero_iff _).mp h0 hicon
  by_cases hb : getButtonFlag (argv.getD 4 "") = 0 ∧ equals (argv.getD 4 "") "OK" = false
  · rw [main_button_error host argv hlen hi hb] at herr
    exact absurd herr (by decide)
  · rw [main_eq_dialogPhase host argv hlen hi hb] at herr
    rcases dialogPhase_stderr host (argv.getD 1 "") (argv.getD 2 "") (styleOf argv)
      (timeoutOf argv) with h | h | h <;> rw [h] at herr <;> exact absurd herr (by decide)

theorem not_icon_CRITICAL : ¬ IsIconToken "CRITICAL" := by
  rintro ⟨k, hk⟩
  cases k <;> exact absurd hk (by decide)

theorem icon_rejected_iff_witness :
    ((["messagebox.exe", "Hi", "T", "CRITICAL", "OK"] : List String).length = 5 ∨
      (["messagebox.exe", "Hi", "T", "CRITICAL", "OK"] : List String).length = 6) ∧
    main (constHost 1) ["messagebox.exe", "Hi", "T", "CRITICAL", "OK"] =
      { exitCode := 1, stdout := [],
        stderr := ["Invalid icon type. Use ERROR, WARNING, INFORMATION, QUESTION.\n"],
        calls := [] } :=
  ⟨by decide,
    (icon_rejected_iff (constHost 1) ["messagebox.exe", "Hi", "T", "CRITICAL", "OK"]
      (by decide)).2.2 not_icon_CRITICAL⟩

/-- C3: with 4 or 5 positional arguments and a valid icon token, the double
check `getButtonFlag(b) == 0 && !equals(b, "OK")` of `main` holds exactly when
the button token matches none of OK, OKCANCEL, RETRYCANCEL, YESNO, YESNOCANCEL
up to case; `main` rejects the button token exactly in that case, and a rejected
token gives exit code 1, the error naming the valid buttons on standard error
and no host call at all, hence no dialog. -/
theorem button_rejected_iff (host : Host) (argv : List String)
    (hlen : argv.length = 5 ∨ argv.length = 6) (hicon : IsIconToken (argv.getD 3 "")) :
    ((getButtonFlag (argv.getD 4 "") = 0 ∧ equals (argv.getD 4 "") "OK" = false) ↔
      ¬ IsButtonToken (argv.getD 4 "")) ∧
    ((main host argv).stderr =
        ["Invalid button type. Use OK, OKCANCEL, RETRYCANCEL, YESNO, YESNOCANCEL.\n"] ↔
      ¬ IsButtonToken (argv.getD 4 "")) ∧
    (¬ IsButtonToken (argv.getD 4 "") →
      main host argv =
        { exitCode := 1, stdout := [],
          stderr := ["Invalid button type. Use OK, OKCANCEL, RETRYCANCEL, YESNO, YESNOCANCEL.\n"],
          calls := [] }) := by
  have hi : getIconFlag (argv.getD 3 "") ≠ 0 := fun h0 => (getIconFlag_eq_zero_iff _).mp h0 hicon
  have hrej : ¬ IsButtonToken (argv.getD 4 "") →
      main host argv =
        { exitCode := 1, stdout := [],
          stderr := ["Invalid button type. Use OK, OKCANCEL, RETRYCANCEL, YESNO, YESNOCANCEL.\n"],
          calls := [] } :=
    fun h => main_button_error host argv hlen hi ((buttonCheck_iff _).mpr h)
  refine ⟨buttonCheck_iff _, ⟨?_, fun h => by rw [hrej h]⟩, hrej⟩
  intro herr hbtn
  have hb : ¬ (getButtonFlag (argv.getD 4 "") = 0 ∧ equals (argv.getD 4 "") "OK" = false) :=
    fun h0 => (buttonCheck_iff _).mp h0 hbtn
  rw [main_eq_dialogPhase host argv hlen hi hb] at herr
  rcases dialogPhase_stderr host (argv.getD 1 "") (argv.getD 2 "") (styleOf argv)
    (timeoutOf argv) with h | h | h <;> rw [h] at herr <;> exact absurd herr (by decide)

theorem not_button_CLOSE : ¬ IsButtonToken "CLOSE" := by
  rintro ⟨b, hb⟩
  cases b <;> exact absurd hb (by decide)

theorem button_rejected_iff_witness :
    (((["messagebox.exe", "Hi", "T", "ERROR", "CLOSE"] : List String).length = 5 ∨
        (["messagebox.exe", "Hi", "T", "ERROR", "CLOSE"] : List String).length = 6) ∧
      IsIconToken "ERROR") ∧
    main (constHost 1) ["messagebox.exe", "Hi", "T", "ERROR", "CLOSE"] =
      { exitCode := 1, stdout := [],
        stderr := ["Invalid button type. Use OK, OKCANCEL, RETRYCANCEL, YESNO, YESNOCANCEL.\n"],
        calls := [] } :=
  ⟨⟨by decide, ⟨.error, by decide⟩⟩,
    (button_rejected_iff (constHost 1) ["messagebox.exe", "Hi", "T", "ERROR", "CLOSE"]
      (by decide) ⟨.error, by decide⟩).2.2 not_button_CLOSE⟩

/-- C5: unless the arguments are the single help token `/?`, a run with fewer
than 4 or more than 5 positional arguments (`argc < 5` or `argc > 6`) returns
exit code 1, writes the argument error to standard error, writes nothing to
standard output and makes no host call, hence requests no dialog, whatever the
arguments contain. -/
theorem wrong_argument_count (host : Host) (argv : List String)
    (hhelp : ¬ (argv.length = 2 ∧ argv.getD 1 "" = "/?"))
    (hcount : argv.length < 5 ∨ argv.length > 6) :
    main host argv =
      { exitCode := 1, stdout := [], stderr := ["Invalid arguments. Use /? for help.\n"],
        calls := [] } := by
  refine main_count_error host argv ?_ hcount
  rw [equals_help_iff]
  exact hhelp

theorem wrong_argument_count_witness :
    (¬ ((["messagebox.exe", "Hi", "T", "ERROR"] : List String).length = 2 ∧
        (["messagebox.exe", "Hi", "T", "ERROR"] : List String).getD 1 "" = "/?") ∧
      ((["messagebox.exe", "Hi", "T", "ERROR"] : List String).length < 5 ∨
        (["messagebox.exe", "Hi", "T", "ERROR"] : List String).length > 6)) ∧
    main (constHost 1) ["messagebox.exe", "Hi", "T", "ERROR"] =
      { exitCode := 1, stdout := [], stderr := ["Invalid arguments. Use /? for help.\n"],
        calls := [] } :=
  ⟨⟨by decide, by decide⟩,
    wrong_argument_count (constHost 1) ["messagebox.exe", "Hi", "T", "ERROR"]
      (by decide) (by decide)⟩

/-- C1: a 4-argument invocation whose icon token is the token of icon kind `k`
and whose button token is the token of button set `s`, each in any mix of case,
passes validation: the flags resolve to those of `k` and `s`, no validation
error is written, exit code 1 can only come from a host that fails to load the
library, every dialog requested carries the unchanged message and title and
the style word `k.flag | s.flag`, and wherever the timeout dialog is available
it is requested with a timeout of 15000 ms. -/
theorem four_arguments_resolve (host : Host) (prog message title icon button : String)
    (k : IconKind) (s : ButtonSet)
    (hicon : matchesToken icon k.token) (hbutton : matchesToken button s.token) :
    getIconFlag icon = k.flag ∧ getButtonFlag button = s.flag ∧
    main host [prog, message, title, icon, button] =
      dialogPhase host message title (k.flag ||| s.flag) 15000 ∧
    (main host [prog, message, title, icon, button]).stderr ≠
      ["Invalid arguments. Use /? for help.\n"] ∧
    (main host [prog, message, title, icon, button]).stderr ≠
      ["Invalid icon type. Use ERROR, WARNING, INFORMATION, QUESTION.\n"] ∧
    (main host [prog, message, title, icon, button]).stderr ≠
      ["Invalid button type. Use OK, OKCANCEL, RETRYCANCEL, YESNO, YESNOCANCEL.\n"] ∧
    ((main host [prog, message, title, icon, button]).exitCode = 1 → host.loadUser32 = false) ∧
    (∀ c ∈ (main host [prog, message, title, icon, button]).calls, c.isDialog = true →
      c = .messageBoxTimeoutA message title (k.flag ||| s.flag) 0 15000 ∨
      c = .messageBoxA message title (k.flag ||| s.flag)) ∧
    (host.loadUser32 = true → host.hasMessageBoxTimeoutA = true →
      main host [prog, message, title, icon, button] =
        { exitCode := 0,
          stdout := [resultToString
            (host.messageBoxTimeoutA message title (k.flag ||| s.flag) 0 15000) ++ "\n"],
          stderr := [],
          calls := [.loadLibraryA "user32.dll", .getProcAddress "MessageBoxTimeoutA",
                    .messageBoxTimeoutA message title (k.flag ||| s.flag) 0 15000,
                    .freeLibrary] }) := by
  have hi := getIconFlag_of_matches k icon hicon
  have hb := getButtonFlag_of_matches s button hbutton
  have hm : main host [prog, message, title, icon, button] =
      dialogPhase host message title (k.flag ||| s.flag) 15000 := by
    rw [main_valid host [prog, message, title, icon, button]
      ⟨Or.inl rfl, ⟨k, hicon⟩, ⟨s, hbutton⟩⟩]
    simp only [styleOf, timeoutOf, List.getD_cons_succ, List.getD_cons_zero, hi, hb,
      List.length_cons, List.length_nil]
    rfl
  refine ⟨hi, hb, hm, ?_, ?_, ?_, ?_, ?_, ?_⟩
  · rw [hm]
    rcases dialogPhase_stderr host message title (k.flag ||| s.flag) 15000 with h | h | h <;>
      rw [h] <;> decide
  · rw [hm]
    rcases dialogPhase_stderr host message title (k.flag ||| s.flag) 15000 with h | h | h <;>
      rw [h] <;> decide
  · rw [hm]
    rcases dialogPhase_stderr host message title (k.flag ||| s.flag) 15000 with h | h | h <;>
      rw [h] <;> decide
  · rw [hm]
    exact dialogPhase_exit_one host message title _ _
  · rw [hm]
    unfold dialogPhase
    split_ifs <;> simp [HostCall.isDialog]
  · intro hl ht
    rw [hm]
    unfold dialogPhase
    rw [if_neg (by simp [hl]), if_pos ht]

theorem four_arguments_resolve_witness :
    (matchesToken "Information" IconKind.information.token ∧
      matchesToken "ok" ButtonSet.ok.token) ∧
    main (constHost 1) ["messagebox.exe", "Hi", "T", "Information", "ok"] =
      { exitCode := 0, stdout := ["OK\n"], stderr := [],
        calls := [.loadLibraryA "user32.dll", .getProcAddress "MessageBoxTimeoutA",
                  .messageBoxTimeoutA "Hi" "T" 0x40 0 15000, .freeLibrary] } :=
  ⟨⟨by decide, by decide⟩,
    (four_arguments_resolve (constHost 1) "messagebox.exe" "Hi" "T" "Information" "ok"
      .information .ok (by decide) (by decide)).2.2.2.2.2.2.2.2 rfl rfl⟩

/-- C6: on a valid invocation with the library loaded, exactly one dialog is
requested, and for the outcome code `c` the host returns to it the run writes
exactly `resultToString c` followed by a newline to standard output and returns
exit code 0 whatever `c` is; `resultToString` sends 1 to OK, 2 to Cancel, 6 to
Yes, 7 to No, 4 to Retry, 32000 to Timeout and every other integer to Unknown. -/
theorem outcome_label_printed (host : Host) (argv : List String)
    (hv : ValidInvocation argv) (hl : host.loadUser32 = true) :
    (∃ call, (main host argv).calls.filter HostCall.isDialog = [call] ∧
      (main host argv).stdout = [resultToString (host.answer call) ++ "\n"]) ∧
    (main host argv).exitCode = 0 ∧
    (∀ c : Int, (main (constHost c) argv).stdout = [resultToString c ++ "\n"] ∧
      (main (constHost c) argv).exitCode = 0) ∧
    (resultToString 1 = "OK" ∧ resultToString 2 = "Cancel" ∧ resultToString 6 = "Yes" ∧
      resultToString 7 = "No" ∧ resultToString 4 = "Retry" ∧
      resultToString 32000 = "Timeout") ∧
    (∀ c : Int, c ≠ 1 → c ≠ 2 → c ≠ 6 → c ≠ 7 → c ≠ 4 → c ≠ 32000 →
      resultToString c = "Unknown") := by
  refine ⟨?_, ?_, ?_, ?_, ?_⟩
  · rw [main_valid host argv hv]
    unfold dialogPhase
    rw [if_neg (by simp [hl])]
    split_ifs
    · exact ⟨_, rfl, rfl⟩
    · exact ⟨_, rfl, rfl⟩
  · rw [main_valid host argv hv]
    unfold dialogPhase
    rw [if_neg (by simp [hl])]
    split_ifs <;> rfl
  · intro c
    rw [main_valid (constHost c) argv hv]
    exact ⟨rfl, rfl⟩
  · decide
  · intro c h1 h2 h6 h7 h4 h32
    unfold resultToString
    simp only [IDOK, IDCANCEL, IDYES, IDNO, IDRETRY, IDTIMEOUT, if_neg h1, if_neg h2, if_neg h6,
      if_neg h7, if_neg h4, if_neg h32]

theorem outcome_label_printed_witness :
    (ValidInvocation ["messagebox.exe", "Hi", "T", "INFORMATION", "OK"] ∧
      (constHost 1).loadUser32 = true) ∧
    (main (constHost 1) ["messagebox.exe", "Hi", "T", "INFORMATION", "OK"]).exitCode = 0 ∧
    (∀ c : Int,
      (main (constHost c) ["messagebox.exe", "Hi", "T", "INFORMATION", "OK"]).stdout =
        [resultToString c ++ "\n"] ∧
      (main (constHost c) ["messagebox.exe", "Hi", "T", "INFORMATION", "OK"]).exitCode = 0) :=
  have hv : ValidInvocation ["messagebox.exe", "Hi", "T", "INFORMATION", "OK"] :=
    ⟨by decide, ⟨.information, by decide⟩, ⟨.ok, by decide⟩⟩
  have h := outcome_label_printed (constHost 1)
    ["messagebox.exe", "Hi", "T", "INFORMATION", "OK"] hv rfl
  ⟨⟨hv, rfl⟩, h.2.1, h.2.2.1⟩

/-- C9: on a valid invocation with the library loaded, if the timeout dialog is
unavailable the run writes the fallback warning to standard error, calls the
plain dialog exactly once with the message, title and style word it would have
passed to the timeout dialog (the timeout is not used), prints the label of the
outcome code returned and exits with code 0; if the timeout dialog is available
the plain dialog is never called and standard error stays empty. -/
theorem fallback_without_timeout (host : Host) (argv : List String)
    (hv : ValidInvocation argv) (hl : host.loadUser32 = true) :
    (host.hasMessageBoxTimeoutA = false →
      main host argv =
        { exitCode := 0,
          stdout := [resultToString
            (host.messageBoxA (argv.getD 1 "") (argv.getD 2 "") (styleOf argv)) ++ "\n"],
          stderr :=
            ["MessageBoxTimeoutA not available. Falling back to MessageBoxA (no timeout).\n"],
          calls := [.loadLibraryA "user32.dll", .getProcAddress "MessageBoxTimeoutA",
                    .messageBoxA (argv.getD 1 "") (argv.getD 2 "") (styleOf argv),
                    .freeLibrary] }) ∧
    (host.hasMessageBoxTimeoutA = true →
      main host argv =
        { exitCode := 0,
          stdout := [resultToString
            (host.messageBoxTimeoutA (argv.getD 1 "") (argv.getD 2 "") (styleOf argv) 0
              (timeoutOf argv)) ++ "\n"],
          stderr := [],
          calls := [.loadLibraryA "user32.dll", .getProcAddress "MessageBoxTimeoutA",
                    .messageBoxTimeoutA (argv.getD 1 "") (argv.getD 2 "") (styleOf argv) 0
                      (timeoutOf argv),
                    .freeLibrary] }) := by
  rw [main_valid host argv hv]
  unfold dialogPhase
  rw [if_neg (by simp [hl])]
  constructor
  · intro h
    rw [if_neg (by simp [h])]
  · intro h
    rw [if_pos h]

theorem fallback_without_timeout_witness :
    (ValidInvocation ["messagebox.exe", "Hi", "T", "WARNING", "RETRYCANCEL", "3"] ∧
      (fallbackHost 4).loadUser32 = true ∧ (fallbackHost 4).hasMessageBoxTimeoutA = false) ∧
    main (fallbackHost 4) ["messagebox.exe", "Hi", "T", "WARNING", "RETRYCANCEL", "3"] =
      { exitCode := 0, stdout := ["Retry\n"],
        stderr :=
          ["MessageBoxTimeoutA not available. Falling back to MessageBoxA (no timeout).\n"],
        calls := [.loadLibraryA "user32.dll", .getProcAddress "MessageBoxTimeoutA",
                  .messageBoxA "Hi" "T" 0x35, .freeLibrary] } :=
  have hv : ValidInvocation ["messagebox.exe", "Hi", "T", "WARNING", "RETRYCANCEL", "3"] :=
    ⟨by decide, ⟨.warning, by decide⟩, ⟨.retryCancel, by decide⟩⟩
  ⟨⟨hv, rfl, rfl⟩,
    (fallback_without_timeout (fallbackHost 4)
      ["messagebox.exe", "Hi", "T", "WARNING", "RETRYCANCEL", "3"] hv rfl).1 rfl⟩

theorem main_stdout_length (host : Host) (argv : List String)
    (h : ¬ (argv.length = 2 ∧ argv.getD 1 "" = "/?")) :
    (main host argv).stdout.length ≤ 1 := by
  have h1 : ¬ (argv.length = 2 ∧ equals (argv.getD 1 "") "/?" = true) := by
    rw [equals_help_iff]; exact h
  by_cases h2 : argv.length < 5 ∨ argv.length > 6
  · rw [main_count_error host argv h1 h2]; simp
  · have hlen : argv.length = 5 ∨ argv.length = 6 := by omega
    by_cases hi : getIconFlag (argv.getD 3 "") = 0
    · rw [main_icon_error host argv hlen hi]; simp
    · by_cases hb : getButtonFlag (argv.getD 4 "") = 0 ∧ equals (argv.getD 4 "") "OK" = false
      · rw [main_button_error host argv hlen hi hb]; simp
      · rw [main_eq_dialogPhase host argv hlen hi hb]
        exact dialogPhase_stdout_length _ _ _ _ _

theorem main_no_count_error (host : Host) (argv : List String)
    (hlen : argv.length = 5 ∨ argv.length = 6) :
    (main host argv).stderr ≠ ["Invalid arguments. Use /? for help.\n"] := by
  by_cases hi : getIconFlag (argv.getD 3 "") = 0
  · rw [main_icon_error host argv hlen hi]; decide
  · by_cases hb : getButtonFlag (argv.getD 4 "") = 0 ∧ equals (argv.getD 4 "") "OK" = false
    · rw [main_button_error host argv hlen hi hb]; decide
    · rw [main_eq_dialogPhase host argv hlen hi hb]
      rcases dialogPhase_stderr host (argv.getD 1 "") (argv.getD 2 "") (styleOf argv)
        (timeoutOf argv) with h | h | h <;> rw [h] <;> decide

/-- C8: a run shows the help, returns exit code 0 and requests no dialog
exactly when it has one argument and that argument is `/?`; the help documents
the message, title, icon, buttons and timeout parameters, the timeout default
of 15 included, and holds usage examples. With 4 or 5 arguments the help is
not shown and no argument-count error is raised, so a `/?` among them is an
ordinary positional argument; with any other count except one the run ends in
the argument-count error, `/?` present or not. -/
theorem help_iff_single_token (host : Host) (argv : List String) :
    (((main host argv).stdout = showHelp ∧ (main host argv).exitCode = 0 ∧
        ∀ c ∈ (main host argv).calls, c.isDialog = false) ↔
      (argv.length = 2 ∧ argv.getD 1 "" = "/?")) ∧
    ((argv.length = 2 ∧ argv.getD 1 "" = "/?") →
      main host argv = { exitCode := 0, stdout := showHelp, stderr := [], calls := [] }) ∧
    ("  message  : The text to display in the message box.\n" ∈ showHelp ∧
      "  title    : The title of the message box window.\n" ∈ showHelp ∧
      "  icon     : Icon style (ERROR, WARNING, INFORMATION, QUESTION).\n" ∈ showHelp ∧
      "  buttons  : Button options (OK, OKCANCEL, RETRYCANCEL, YESNO, YESNOCANCEL).\n"
        ∈ showHelp ∧
      "  timeout  : Timeout in seconds (optional, default: 15).\n\n" ∈ showHelp ∧
      "  messagebox.exe \"Hello!\" \"Greetings\" INFORMATION OK\n" ∈ showHelp ∧
      "  messagebox.exe \"Delete file?\" \"Confirm\" QUESTION YESNOCANCEL 10\n" ∈ showHelp) ∧
    ((argv.length = 5 ∨ argv.length = 6) →
      (main host argv).stdout ≠ showHelp ∧
      (main host argv).stderr ≠ ["Invalid arguments. Use /? for help.\n"]) ∧
    (main host ["messagebox.exe", "/?", "/?", "ERROR", "OK"] =
      dialogPhase host "/?" "/?" 0x10 15000) ∧
    (argv.length ≠ 2 → (argv.length < 5 ∨ argv.length > 6) →
      main host argv =
        { exitCode := 1, stdout := [], stderr := ["Invalid arguments. Use /? for help.\n"],
          calls := [] }) := by
  have hhelp : (argv.length = 2 ∧ argv.getD 1 "" = "/?") →
      main host argv = { exitCode := 0, stdout := showHelp, stderr := [], calls := [] } := by
    intro h
    apply main_help
    rw [equals_help_iff]
    exact h
  have hnot : ¬ (argv.length = 2 ∧ argv.getD 1 "" = "/?") →
      (main host argv).stdout ≠ showHelp := by
    intro h heq
    have hlen := main_stdout_length host argv h
    rw [heq] at hlen
    exact absurd hlen (by decide)
  refine ⟨⟨?_, ?_⟩, hhelp, by decide, ?_, ?_, ?_⟩
  · rintro ⟨hout, -, -⟩
    by_contra hc
    exact hnot hc hout
  · intro h
    rw [hhelp h]
    exact ⟨rfl, rfl, by simp⟩
  · intro hlen
    exact ⟨hnot (by omega), main_no_count_error host argv hlen⟩
  · rw [main_valid host ["messagebox.exe", "/?", "/?", "ERROR", "OK"]
      ⟨by decide, ⟨.error, by decide⟩, ⟨.ok, by decide⟩⟩]
    have hs : styleOf ["messagebox.exe", "/?", "/?", "ERROR", "OK"] = 0x10 := by decide
    have ht : timeoutOf ["messagebox.exe", "/?", "/?", "ERROR", "OK"] = 15000 := by decide
    rw [hs, ht]
    rfl
  · intro h2 hcount
    exact main_count_error host argv (by omega) hcount

theorem help_iff_single_token_witness :
    ((["messagebox.exe", "/?"] : List String).length = 2 ∧
      (["messagebox.exe", "/?"] : List String).getD 1 "" = "/?") ∧
    main (constHost 1) ["messagebox.exe", "/?"] =
      { exitCode := 0, stdout := showHelp, stderr := [], calls := [] } :=
  ⟨by decide, (help_iff_single_token (constHost 1) ["messagebox.exe", "/?"]).2.1 (by decide)⟩

/-- C2, as the code has it: on an otherwise valid 5-argument invocation whose
fifth argument is the decimal numeral of an integer `t` in the range of `int`,
the timeout passed to the timeout dialog is `t * 1000` reduced modulo `2 ^ 32`;
it equals `t * 1000` exactly when `0 ≤ t ≤ 4294967`. -/
theorem timeout_of_numeral (host : Host) (prog message title icon button : String) (t : Int)
    (hicon : IsIconToken icon) (hbutton : IsButtonToken button)
    (hmin : INT_MIN ≤ t) (hmax : t ≤ INT_MAX)
    (hl : host.loadUser32 = true) (ht : host.hasMessageBoxTimeoutA = true) :
    main host [prog, message, title, icon, button, numeral t] =
      { exitCode := 0,
        stdout := [resultToString
          (host.messageBoxTimeoutA message title (getIconFlag icon ||| getButtonFlag button) 0
            ((t * 1000) % 4294967296).toNat) ++ "\n"],
        stderr := [],
        calls := [.loadLibraryA "user32.dll", .getProcAddress "MessageBoxTimeoutA",
                  .messageBoxTimeoutA message title (getIconFlag icon ||| getButtonFlag button) 0
                    ((t * 1000) % 4294967296).toNat,
                  .freeLibrary] } ∧
    ((((t * 1000) % 4294967296).toNat : Int) = t * 1000 ↔ (0 ≤ t ∧ t ≤ 4294967)) := by
  constructor
  · rw [main_valid host [prog, message, title, icon, button, numeral t]
      ⟨Or.inr rfl, hicon, hbutton⟩]
    have htime : timeoutOf [prog, message, title, icon, button, numeral t] =
        ((t * 1000) % 4294967296).toNat := by
      rw [timeoutOf_six, atoi_numeral t hmin hmax, toDWORD_mulInt32]
    rw [htime]
    unfold dialogPhase
    rw [if_neg (by simp [hl]), if_pos ht]
    rfl
  · omega

theorem timeout_of_numeral_witness :
    (IsIconToken "QUESTION" ∧ IsButtonToken "YESNOCANCEL" ∧ INT_MIN ≤ 10 ∧ (10 : Int) ≤ INT_MAX ∧
      (constHost 32000).loadUser32 = true ∧ (constHost 32000).hasMessageBoxTimeoutA = true) ∧
    main (constHost 32000) ["messagebox.exe", "Hi", "T", "QUESTION", "YESNOCANCEL", numeral 10] =
      { exitCode := 0, stdout := ["Timeout\n"], stderr := [],
        calls := [.loadLibraryA "user32.dll", .getProcAddress "MessageBoxTimeoutA",
                  .messageBoxTimeoutA "Hi" "T" 0x23 0 10000, .freeLibrary] } :=
  ⟨⟨⟨.question, by decide⟩, ⟨.yesNoCancel, by decide⟩, by decide, by decide, rfl, rfl⟩,
    (timeout_of_numeral (constHost 32000) "messagebox.exe" "Hi" "T" "QUESTION" "YESNOCANCEL" 10
      ⟨.question, by decide⟩ ⟨.yesNoCancel, by decide⟩ (by decide) (by decide) rfl rfl).1⟩

/-- C2 fails as stated: with fifth argument `-1`, the numeral of the integer
-1, the timeout passed is 4294966296 ms and not -1000 ms; with fifth argument
`5000000` it is 705032704 ms and not 5000000000 ms. -/
theorem timeout_of_numeral_counterexample :
    numeral (-1) = "-1" ∧
    (main (constHost 32000)
        ["messagebox.exe", "Hi", "T", "QUESTION", "YESNOCANCEL", numeral (-1)]).calls =
      [.loadLibraryA "user32.dll", .getProcAddress "MessageBoxTimeoutA",
       .messageBoxTimeoutA "Hi" "T" 0x23 0 4294966296, .freeLibrary] ∧
    ((4294966296 : Nat) : Int) ≠ (-1) * 1000 ∧
    numeral 5000000 = "5000000" ∧
    (main (constHost 32000)
        ["messagebox.exe", "Hi", "T", "QUESTION", "YESNOCANCEL", numeral 5000000]).calls =
      [.loadLibraryA "user32.dll", .getProcAddress "MessageBoxTimeoutA",
       .messageBoxTimeoutA "Hi" "T" 0x23 0 705032704, .freeLibrary] ∧
    ((705032704 : Nat) : Int) ≠ 5000000 * 1000 := by
  refine ⟨by decide, by decide, by decide, by decide, by decide, by decide⟩

theorem atoiDigits_toDigitsCore_append (fuel : Nat) :
    ∀ (n : Nat) (ds rest : List Char), n < fuel →
      atoiDigits (Nat.toDigitsCore 10 fuel n ds ++ rest) 0 = atoiDigits (ds ++ rest) n := by
  induction fuel with
  | zero => intro n ds rest h; omega
  | succ fuel ih =>
    intro n ds rest h
    have hd := digitChar_lt_ten (n % 10) (Nat.mod_lt n (by decide))
    simp only [Nat.toDigitsCore]
    split
    · rename_i h0
      simp only [List.cons_append, atoiDigits, hd.1, if_true, hd.2]
      congr 1
      omega
    · rw [ih (n / 10) _ rest (by omega)]
      simp only [List.cons_append, atoiDigits, hd.1, if_true, hd.2]
      congr 1
      omega

theorem atoiDigits_of_not_digit (rest : List Char) (n : Nat)
    (h : ∀ c cs, rest = c :: cs → isdigit c = false) : atoiDigits rest n = n := by
  rcases rest with _ | ⟨c, cs⟩
  · rfl
  · simp only [atoiDigits, h c cs rfl]
    rfl

theorem dropWhile_isspace_append (ws l : List Char) (hws : ∀ c ∈ ws, isspace c = true) :
    List.dropWhile isspace (ws ++ l) = List.dropWhile isspace l := by
  induction ws with
  | nil => rfl
  | cons c cs ih =>
    rw [List.cons_append, List.dropWhile_cons_of_pos (hws c (List.mem_cons_self c cs))]
    exact ih (fun d hd => hws d (List.mem_cons_of_mem c hd))

theorem atoi_numeral_append (ws rest : String) (n : Int)
    (h1 : INT_MIN ≤ n) (h2 : n ≤ INT_MAX)
    (hws : ∀ c ∈ ws.toList, isspace c = true)
    (hrest : ∀ c cs, rest.toList = c :: cs → isdigit c = false) :
    atoi (ws ++ numeral n ++ rest) = n := by
  obtain ⟨c, cs, hcs, hc⟩ := toDigitsCore_head (n.natAbs + 1) n.natAbs [] (by omega)
  have hrepr : (Nat.repr n.natAbs).toList = c :: cs := hcs
  have hv : atoiDigits (c :: cs ++ rest.toList) 0 = n.natAbs := by
    have := atoiDigits_toDigitsCore_append (n.natAbs + 1) n.natAbs [] rest.toList (by omega)
    rw [hcs] at this
    rw [this, List.nil_append]
    exact atoiDigits_of_not_digit rest.toList n.natAbs hrest
  have hl : (ws ++ numeral n ++ rest).toList =
      ws.toList ++ ((numeral n).toList ++ rest.toList) := by
    show (ws ++ numeral n ++ rest).data = _
    rw [String.data_append, String.data_append, List.append_assoc]
    rfl
  unfold atoi
  rw [hl, dropWhile_isspace_append ws.toList _ hws]
  unfold numeral
  by_cases hn : n < 0
  · rw [if_pos hn]
    have hm : ("-" ++ Nat.repr n.natAbs).toList ++ rest.toList =
        '-' :: (c :: cs ++ rest.toList) := by
      show ("-" ++ Nat.repr n.natAbs).data ++ _ = _
      rw [String.data_append]
      show (_ ++ (Nat.repr n.natAbs).toList) ++ _ = _
      rw [hrepr]
      rfl
    rw [hm, List.dropWhile_cons_of_neg (by decide)]
    simp only [atoiSigned, if_true, hv]
    have : (-(n.natAbs : Int)) = n := by omega
    rw [this]
    exact clampInt32_of_range n h1 h2
  · rw [if_neg hn, hrepr]
    have hs := isdigit_not_sign c hc
    rw [List.cons_append, List.dropWhile_cons_of_neg (by simp [isdigit_not_space c hc])]
    simp only [atoiSigned, if_neg hs.1, if_neg hs.2]
    rw [← List.cons_append, hv]
    have : ((n.natAbs : Nat) : Int) = n := by omega
    rw [this]
    exact clampInt32_of_range n h1 h2

theorem isDecimalNumeral_startsWithInteger (s : String) (h : isDecimalNumeral s = true) :
    startsWithInteger s = true := by
  unfold isDecimalNumeral at h
  unfold startsWithInteger
  rcases hs : s.toList with _ | ⟨c, cs⟩
  · rw [hs] at h; exact absurd h (by decide)
  · rw [hs] at h
    simp only at h
    by_cases hsign : c = '-' ∨ c = '+'
    · rw [if_pos hsign] at h
      have hsp : isspace c = false := by rcases hsign with rfl | rfl <;> decide
      rw [List.dropWhile_cons_of_neg (by simp [hsp])]
      simp only [if_pos hsign]
      rcases cs with _ | ⟨d, ds⟩
      · exact absurd h (by decide)
      · simp only [List.all_cons, Bool.and_eq_true] at h
        exact h.2.1
    · rw [if_neg hsign] at h
      simp only [List.all_cons, Bool.and_eq_true] at h
      rw [List.dropWhile_cons_of_neg (by simp [isdigit_not_space c h.1])]
      simp only [if_neg hsign]
      exact h.1

/-- C7, as the code has it: on an otherwise valid 5-argument invocation the
fifth argument is never rejected, whatever it holds: the timeout dialog is
requested and the exit code is 0. When the fifth argument does not begin with
an integer (after optional white space and one optional sign there is no
digit), which excludes every decimal numeral, the timeout passed is 0 ms.
When the fifth argument is optional white space, then the decimal numeral of
an integer `t` in the range of `int`, then any characters the first of which
is not a digit, the rest is ignored and the timeout passed is `t * 1000`
reduced modulo `2 ^ 32`. -/
theorem timeout_without_integer (host : Host) (prog message title icon button arg : String)
    (hicon : IsIconToken icon) (hbutton : IsButtonToken button)
    (hl : host.loadUser32 = true) (ht : host.hasMessageBoxTimeoutA = true) :
    ((main host [prog, message, title, icon, button, arg]).exitCode = 0 ∧
      ∃ ms, (main host [prog, message, title, icon, button, arg]).calls =
        [.loadLibraryA "user32.dll", .getProcAddress "MessageBoxTimeoutA",
         .messageBoxTimeoutA message title (getIconFlag icon ||| getButtonFlag button) 0 ms,
         .freeLibrary]) ∧
    (startsWithInteger arg = false →
      isDecimalNumeral arg = false ∧
      main host [prog, message, title, icon, button, arg] =
        { exitCode := 0,
          stdout := [resultToString
            (host.messageBoxTimeoutA message title (getIconFlag icon ||| getButtonFlag button)
              0 0) ++ "\n"],
          stderr := [],
          calls := [.loadLibraryA "user32.dll", .getProcAddress "MessageBoxTimeoutA",
                    .messageBoxTimeoutA message title
                      (getIconFlag icon ||| getButtonFlag button) 0 0,
                    .freeLibrary] }) ∧
    (∀ (t : Int) (ws rest : String), INT_MIN ≤ t → t ≤ INT_MAX →
      (∀ c ∈ ws.toList, isspace c = true) →
      (∀ c cs, rest.toList = c :: cs → isdigit c = false) →
      arg = ws ++ numeral t ++ rest →
      main host [prog, message, title, icon, button, arg] =
        { exitCode := 0,
          stdout := [resultToString
            (host.messageBoxTimeoutA message title (getIconFlag icon ||| getButtonFlag button)
              0 ((t * 1000) % 4294967296).toNat) ++ "\n"],
          stderr := [],
          calls := [.loadLibraryA "user32.dll", .getProcAddress "MessageBoxTimeoutA",
                    .messageBoxTimeoutA message title
                      (getIconFlag icon ||| getButtonFlag button) 0
                      ((t * 1000) % 4294967296).toNat,
                    .freeLibrary] }) := by
  have hm := main_valid host [prog, message, title, icon, button, arg]
    ⟨Or.inr rfl, hicon, hbutton⟩
  have hd : dialogPhase host message title (getIconFlag icon ||| getButtonFlag button)
      (timeoutOf [prog, message, title, icon, button, arg]) =
      { exitCode := 0,
        stdout := [resultToString
          (host.messageBoxTimeoutA message title (getIconFlag icon ||| getButtonFlag button) 0
            (timeoutOf [prog, message, title, icon, button, arg])) ++ "\n"],
        stderr := [],
        calls := [.loadLibraryA "user32.dll", .getProcAddress "MessageBoxTimeoutA",
                  .messageBoxTimeoutA message title (getIconFlag icon ||| getButtonFlag button) 0
                    (timeoutOf [prog, message, title, icon, button, arg]),
                  .freeLibrary] } := by
    unfold dialogPhase
    rw [if_neg (by simp [hl]), if_pos ht]
  have hm2 : main host [prog, message, title, icon, button, arg] = _ := hm.trans hd
  refine ⟨⟨by rw [hm2], ⟨_, by rw [hm2]⟩⟩, ?_, ?_⟩
  · intro hno
    refine ⟨?_, ?_⟩
    · cases hnum : isDecimalNumeral arg
      · rfl
      · rw [isDecimalNumeral_startsWithInteger arg hnum] at hno
        exact absurd hno (by decide)
    · have htime : timeoutOf [prog, message, title, icon, button, arg] = 0 := by
        rw [timeoutOf_six, atoi_of_no_integer arg hno]
        rfl
      rw [hm2, htime]
  · intro t ws rest hmin hmax hws hrest harg
    have htime : timeoutOf [prog, message, title, icon, button, arg] =
        ((t * 1000) % 4294967296).toNat := by
      rw [timeoutOf_six, harg, atoi_numeral_append ws rest t hmin hmax hws hrest,
        toDWORD_mulInt32]
    rw [hm2, htime]

theorem timeout_without_integer_witness :
    (IsIconToken "ERROR" ∧ IsButtonToken "OK" ∧ (constHost 1).loadUser32 = true ∧
      (constHost 1).hasMessageBoxTimeoutA = true ∧ startsWithInteger "soon" = false) ∧
    main (constHost 1) ["messagebox.exe", "Hi", "T", "ERROR", "OK", "soon"] =
      { exitCode := 0, stdout := ["OK\n"], stderr := [],
        calls := [.loadLibraryA "user32.dll", .getProcAddress "MessageBoxTimeoutA",
                  .messageBoxTimeoutA "Hi" "T" 0x10 0 0, .freeLibrary] } ∧
    (INT_MIN ≤ 12 ∧ (12 : Int) ≤ INT_MAX ∧ (∀ c ∈ " ".toList, isspace c = true) ∧
      (∀ c cs, ".9".toList = c :: cs → isdigit c = false) ∧
      " 12.9" = " " ++ numeral 12 ++ ".9") ∧
    main (constHost 1) ["messagebox.exe", "Hi", "T", "ERROR", "OK", " 12.9"] =
      { exitCode := 0, stdout := ["OK\n"], stderr := [],
        calls := [.loadLibraryA "user32.dll", .getProcAddress "MessageBoxTimeoutA",
                  .messageBoxTimeoutA "Hi" "T" 0x10 0 12000, .freeLibrary] } :=
  have hws : ∀ c ∈ " ".toList, isspace c = true := by decide
  have hrest : ∀ c cs, ".9".toList = c :: cs → isdigit c = false := by
    intro c cs h
    have hc : c = '.' := by
      have := List.head_eq_of_cons_eq h.symm
      exact this
    rw [hc]
    decide
  ⟨⟨⟨.error, by decide⟩, ⟨.ok, by decide⟩, rfl, rfl, by decide⟩,
    ((timeout_without_integer (constHost 1) "messagebox.exe" "Hi" "T" "ERROR" "OK" "soon"
      ⟨.error, by decide⟩ ⟨.ok, by decide⟩ rfl rfl).2.1 (by decide)).2,
    ⟨by decide, by decide, hws, hrest, by decide⟩,
    (timeout_without_integer (constHost 1) "messagebox.exe" "Hi" "T" "ERROR" "OK" " 12.9"
      ⟨.error, by decide⟩ ⟨.ok, by decide⟩ rfl rfl).2.2 12 " " ".9" (by decide) (by decide)
      hws hrest (by decide)⟩

/-- C7 fails as stated: the fifth argument `12abc` is not a decimal integer
numeral, yet the timeout passed is 12000 ms and not 0 ms. -/
theorem timeout_without_integer_counterexample :
    isDecimalNumeral "12abc" = false ∧
    (main (constHost 1) ["messagebox.exe", "Hi", "T", "ERROR", "OK", "12abc"]).calls =
      [.loadLibraryA "user32.dll", .getProcAddress "MessageBoxTimeoutA",
       .messageBoxTimeoutA "Hi" "T" 0x10 0 12000, .freeLibrary] ∧
    timeoutOf ["messagebox.exe", "Hi", "T", "ERROR", "OK", "12abc"] ≠ 0 := by
  refine ⟨by decide, by decide, by decide⟩

end MessageBox
